import Mathlib

/-!
Verification of the reminder-record core of `advanced_reminder_app_final.py`:
the `Reminder` data model, the canonical sort, the JSON persistence codec
(`to_dict` / `from_dict`), and the mutation operations of the app class.
Python `datetime` values are modelled at second resolution (the microsecond
field plays no role in any behaviour considered here), `datetime.strptime`
with the fixed format `"%Y-%m-%d %H:%M"` is modelled by `strptime`, and
`datetime.strftime` with the same format by `strftime`.
-/

namespace ReminderApp

/-- Model of a Python `datetime.datetime` value, truncated at second
resolution.  Python compares `datetime` values lexicographically by field. -/
structure PyDateTime where
  year : Nat
  month : Nat
  day : Nat
  hour : Nat
  minute : Nat
  second : Nat
deriving DecidableEq, Repr

/-- `PRIORITY_LEVELS = ["High", "Medium", "Low"]`. -/
def PRIORITY_LEVELS : List String := ["High", "Medium", "Low"]

/-- Numeric value of a decimal digit character (`int(c)` on a matched digit). -/
def dval (c : Char) : Nat := c.toNat - 48

/-- `%Y` field of the compiled strptime pattern: exactly four digits. -/
def parse_Y : List Char → Option (Nat × List Char)
  | c1 :: c2 :: c3 :: c4 :: rest =>
    if c1.isDigit ∧ c2.isDigit ∧ c3.isDigit ∧ c4.isDigit then
      some ((((dval c1) * 10 + dval c2) * 10 + dval c3) * 10 + dval c4, rest)
    else none
  | _ => none

/-- A literal character of the format (`-` and `:`). -/
def expectChar (c : Char) : List Char → Option (List Char)
  | d :: rest => if d = c then some rest else none
  | [] => none

/-- `%m` field: the alternation `1[0-2]|0[1-9]|[1-9]`, tried left to right. -/
def parse_m : List Char → Option (Nat × List Char)
  | '1' :: c :: rest =>
    if '0' ≤ c ∧ c ≤ '2' then some (10 + dval c, rest) else some (1, c :: rest)
  | '0' :: c :: rest => if '1' ≤ c ∧ c ≤ '9' then some (dval c, rest) else none
  | c :: rest => if '1' ≤ c ∧ c ≤ '9' then some (dval c, rest) else none
  | [] => none

/-- `%d` field: the alternation `3[01]|[12][0-9]|0[1-9]|[1-9]`. -/
def parse_d : List Char → Option (Nat × List Char)
  | '3' :: c :: rest =>
    if c = '0' ∨ c = '1' then some (30 + dval c, rest) else some (3, c :: rest)
  | c1 :: c2 :: rest =>
    if ('1' ≤ c1 ∧ c1 ≤ '2') ∧ c2.isDigit then some (dval c1 * 10 + dval c2, rest)
    else if c1 = '0' ∧ ('1' ≤ c2 ∧ c2 ≤ '9') then some (dval c2, rest)
    else if '1' ≤ c1 ∧ c1 ≤ '9' then some (dval c1, c2 :: rest)
    else none
  | [c] => if '1' ≤ c ∧ c ≤ '9' then some (dval c, []) else none
  | [] => none

/-- `%H` field: the alternation `2[0-3]|[0-1][0-9]|[0-9]`. -/
def parse_H : List Char → Option (Nat × List Char)
  | '2' :: c :: rest =>
    if '0' ≤ c ∧ c ≤ '3' then some (20 + dval c, rest) else some (2, c :: rest)
  | c1 :: c2 :: rest =>
    if (c1 = '0' ∨ c1 = '1') ∧ c2.isDigit then some (dval c1 * 10 + dval c2, rest)
    else if c1.isDigit then some (dval c1, c2 :: rest)
    else none
  | [c] => if c.isDigit then some (dval c, []) else none
  | [] => none

/-- `%M` field: the alternation `[0-5][0-9]|[0-9]`. -/
def parse_M : List Char → Option (Nat × List Char)
  | c1 :: c2 :: rest =>
    if ('0' ≤ c1 ∧ c1 ≤ '5') ∧ c2.isDigit then some (dval c1 * 10 + dval c2, rest)
    else if c1.isDigit then some (dval c1, c2 :: rest)
    else none
  | [c] => if c.isDigit then some (dval c, []) else none
  | [] => none

/-- The literal space of the format, compiled by `_strptime` to `\s+`:
one or more whitespace characters. -/
def skip_ws : List Char → Option (List Char)
  | c :: rest =>
    if c.isWhitespace then some (rest.dropWhile Char.isWhitespace) else none
  | [] => none

/-- Gregorian leap-year rule used by `datetime`. -/
def isLeapYear (y : Nat) : Bool := y % 4 = 0 && (y % 100 ≠ 0 || y % 400 = 0)

/-- Number of days of a month, as validated by the `datetime` constructor. -/
def daysInMonth (y m : Nat) : Nat :=
  if m = 2 then (if isLeapYear y then 29 else 28)
  else if m = 4 ∨ m = 6 ∨ m = 9 ∨ m = 11 then 30
  else 31

/-- Field validation performed by the `datetime(...)` constructor that
`strptime` calls on the matched fields (`ValueError` outside the ranges). -/
def mkValidDateTime (y m d h mi : Nat) : Option PyDateTime :=
  if 1 ≤ y ∧ y ≤ 9999 ∧ 1 ≤ m ∧ m ≤ 12 ∧ 1 ≤ d ∧ d ≤ daysInMonth y m ∧
      h ≤ 23 ∧ mi ≤ 59 then
    some ⟨y, m, d, h, mi, 0⟩
  else none

/-- `datetime.strptime(s, "%Y-%m-%d %H:%M")`, returning `none` where Python
raises `ValueError` (no match, trailing input, or constructor validation). -/
def strptime (s : String) : Option PyDateTime := do
  let p1 ← parse_Y s.data
  let r2 ← expectChar '-' p1.2
  let p2 ← parse_m r2
  let r4 ← expectChar '-' p2.2
  let p3 ← parse_d r4
  let r6 ← skip_ws p3.2
  let p4 ← parse_H r6
  let r8 ← expectChar ':' p4.2
  let p5 ← parse_M r8
  if p5.2 = [] then mkValidDateTime p1.1 p2.1 p3.1 p4.1 p5.1 else none

/-- Two-digit zero-padded decimal rendering (`%m`, `%d`, `%H`, `%M`). -/
def pad2 (n : Nat) : List Char := [Char.ofNat (48 + n / 10 % 10), Char.ofNat (48 + n % 10)]

/-- Four-digit zero-padded decimal rendering (`%Y`). -/
def pad4 (n : Nat) : List Char :=
  [Char.ofNat (48 + n / 1000 % 10), Char.ofNat (48 + n / 100 % 10),
   Char.ofNat (48 + n / 10 % 10), Char.ofNat (48 + n % 10)]

/-- Character sequence of `d.strftime("%Y-%m-%d %H:%M")`. -/
def strftimeChars (d : PyDateTime) : List Char :=
  pad4 d.year ++ '-' :: (pad2 d.month ++ '-' :: (pad2 d.day ++
    ' ' :: (pad2 d.hour ++ ':' :: pad2 d.minute)))

/-- `d.strftime("%Y-%m-%d %H:%M")`: minute resolution, seconds dropped. -/
def strftime (d : PyDateTime) : String := String.mk (strftimeChars d)

/-- Range invariant of every Python `datetime` object (enforced by its
constructor); Lean values outside it correspond to no Python datetime. -/
def DTValid (d : PyDateTime) : Prop :=
  1 ≤ d.year ∧ d.year ≤ 9999 ∧ 1 ≤ d.month ∧ d.month ≤ 12 ∧ 1 ≤ d.day ∧
    d.day ≤ daysInMonth d.year d.month ∧ d.hour ≤ 23 ∧ d.minute ≤ 59 ∧
    d.second ≤ 59

instance : DecidablePred DTValid := fun d => by unfold DTValid; infer_instance

/-- A reminder record (the fields of the Python `Reminder` object). -/
structure Reminder where
  task : String
  priority : String
  details : String
  is_completed : Bool
  creation_date : String
  due_date : PyDateTime
deriving DecidableEq, Repr

/-- The `due_date_str` argument of `Reminder.__init__`, which the constructor
dispatches on by `isinstance`: a `str`, a `datetime`, or anything else. -/
inductive DueDateInput where
  | str (s : String)
  | dt (d : PyDateTime)
  | other
deriving DecidableEq, Repr

/-- `Reminder.__init__`.  `now` stands for `datetime.now()` at construction
time.  A missing `creation_date` (Python `None`) or a falsy one (the empty
string) is replaced by `now` rendered at minute resolution; an unparsable or
non-string `due_date_str` falls back to `now` itself (full precision). -/
def Reminder.init (task : String) (due_date_str : DueDateInput) (priority : String)
    (details : String) (is_completed : Bool) (creation_date : Option String)
    (now : PyDateTime) : Reminder :=
  { task := task
    priority := priority
    details := details
    is_completed := is_completed
    creation_date :=
      match creation_date with
      | some c => if c = "" then strftime now else c
      | none => strftime now
    due_date :=
      match due_date_str with
      | .str s =>
        match strptime s with
        | some d => d
        | none => now
      | .dt d => d
      | .other => now }

/-- JSON values, as loaded by `json.load` (numbers as integers suffice: the
persisted schema stores no fractional number). -/
inductive Json where
  | null
  | bool (b : Bool)
  | num (n : Int)
  | str (s : String)
  | arr (elems : List Json)
  | obj (fields : List (String × Json))
deriving BEq, Repr

/-- Dictionary lookup.  `json.load` gives each object unique keys (a repeated
key keeps the last occurrence), so the association lists used here carry
distinct keys and first-match lookup is dictionary lookup. -/
def getKey (data : List (String × Json)) (k : String) : Option Json :=
  (data.find? (fun kv => kv.1 = k)).map (fun kv => kv.2)

/-- `data[k]`: raises `KeyError` when the key is absent. -/
def getRequired (data : List (String × Json)) (k : String) : Except String Json :=
  match getKey data k with
  | some j => .ok j
  | none => .error ("KeyError: " ++ k)

/-- Read a field expected to hold a string.  (Python stores whatever value the
document holds without checking; documents are restricted here to the
schema's field types, which every claim under study respects.) -/
def asString : Json → Except String String
  | .str s => .ok s
  | _ => .error "TypeError"

/-- Read a field expected to hold a boolean. -/
def asBool : Json → Except String Bool
  | .bool b => .ok b
  | _ => .error "TypeError"

/-- `data.get("creation_date")`: absent gives Python `None`, and a JSON
`null` also loads as `None`. -/
def asOptString : Option Json → Except String (Option String)
  | none => .ok none
  | some .null => .ok none
  | some (.str s) => .ok (some s)
  | some _ => .error "TypeError"

/-- `Reminder.to_dict`: the persisted dictionary of one record; `due_date_str`
is the due date rendered at minute resolution, `creation_date` the stored
text verbatim. -/
def Reminder.to_dict (r : Reminder) : List (String × Json) :=
  [("task", .str r.task),
   ("due_date_str", .str (strftime r.due_date)),
   ("priority", .str r.priority),
   ("details", .str r.details),
   ("is_completed", .bool r.is_completed),
   ("creation_date", .str r.creation_date)]

/-- `Reminder.from_dict`: `task`, `due_date_str` and `priority` are read with
`data[...]` (required, in that evaluation order), the rest with `data.get`
and the defaults `""`, `False`, `None`.  A non-string `due_date_str` is
passed through to the constructor's `isinstance` dispatch. -/
def Reminder.from_dict (data : List (String × Json)) (now : PyDateTime) :
    Except String Reminder := do
  let taskJ ← getRequired data "task"
  let dueJ ← getRequired data "due_date_str"
  let priorityJ ← getRequired data "priority"
  let task ← asString taskJ
  let priority ← asString priorityJ
  let details ← asString ((getKey data "details").getD (.str ""))
  let is_completed ← asBool ((getKey data "is_completed").getD (.bool false))
  let creation_date ← asOptString (getKey data "creation_date")
  let due : DueDateInput :=
    match dueJ with
    | .str s => .str s
    | _ => .other
  return Reminder.init task due priority details is_completed creation_date now

/-- Python iteration over the loaded top-level JSON value: a list yields its
elements, a dict its keys, a string its characters; other values raise
`TypeError` (not iterable). -/
def pythonIter : Json → Except String (List Json)
  | .arr l => .ok l
  | .obj kvs => .ok (kvs.map (fun kv => .str kv.1))
  | .str s => .ok (s.data.map (fun c => .str (String.mk [c])))
  | _ => .error "TypeError: not iterable"

/-- One step of `[Reminder.from_dict(item) for item in data_loaded]`:
indexing a non-dict item with a string key raises `TypeError`. -/
def decodeItem (now : PyDateTime) : Json → Except String Reminder
  | .obj kvs => Reminder.from_dict kvs now
  | _ => .error "TypeError"

/-- The decode half of the codec: the whole comprehension, evaluated before
any assignment to the collection; any failure aborts the whole decode. -/
def decode_document (doc : Json) (now : PyDateTime) : Except String (List Reminder) := do
  let items ← pythonIter doc
  items.mapM (decodeItem now)

/-- The encode half (`data_to_save = [r.to_dict() for r in self.reminders_list]`). -/
def encode (l : List Reminder) : Json := .arr (l.map (fun r => .obj r.to_dict))

/-- `priority_map = {level: i for i, level in enumerate(PRIORITY_LEVELS)}`:
High maps to 0, Medium to 1, Low to 2; any other string raises `KeyError`
in Python, modelled by `none`. -/
def priority_map (p : String) : Option Nat :=
  PRIORITY_LEVELS.findIdx? (fun q => q = p)

/-- Rank used by the sort comparator.  Strings outside `PRIORITY_LEVELS`
never reach the Python sort (they would raise `KeyError`); they are given
rank 3 to keep the comparator total. -/
def priorityRank (p : String) : Nat := (priority_map p).getD 3

/-- Python compares `datetime` values lexicographically by field. -/
def dtKey (d : PyDateTime) : Nat ×ₗ Nat ×ₗ Nat ×ₗ Nat ×ₗ Nat ×ₗ Nat :=
  toLex (d.year, toLex (d.month, toLex (d.day, toLex (d.hour, toLex (d.minute, d.second)))))

/-- The sort key `(r.is_completed, r.due_date, priority_map[r.priority])` of
`_sort_reminders`, under Python's lexicographic tuple comparison
(`False < True` for the completion flag). -/
def Reminder.sortKey (r : Reminder) :
    Bool ×ₗ ((Nat ×ₗ Nat ×ₗ Nat ×ₗ Nat ×ₗ Nat ×ₗ Nat) ×ₗ Nat) :=
  toLex (r.is_completed, toLex (dtKey r.due_date, priorityRank r.priority))

/-- Boolean comparator induced by the sort key. -/
def reminder_le (a b : Reminder) : Bool := decide (a.sortKey ≤ b.sortKey)

/-- `_sort_reminders`: `list.sort` is an ascending stable sort by key. -/
def sort_reminders (l : List Reminder) : List Reminder := l.mergeSort reminder_le

/-- Sortedness of the collection under the canonical comparator. -/
def SortedByKey (l : List Reminder) : Prop :=
  l.Pairwise (fun a b => reminder_le a b = true)

/-- Python `str.strip()`: leading and trailing whitespace removed. -/
def pythonStrip (s : String) : String :=
  String.mk (((s.data.dropWhile Char.isWhitespace).reverse.dropWhile
    Char.isWhitespace).reverse)

/-- Result signalled to the user by a mutation handler. -/
inductive OpResult where
  | ok
  | validationError (field : String)
  | noSelection
deriving DecidableEq, Repr

/-- `_add_reminder_from_ui`: strips the raw field texts, rejects an empty
task, an empty due text, or one that does not parse; otherwise constructs
the record (`completed=False`, `creation_date` defaulting to now), appends
it and re-sorts. -/
def add_reminder_from_ui (state : List Reminder)
    (task due_date_str priority details : String) (now : PyDateTime) :
    List Reminder × OpResult :=
  let task := pythonStrip task
  let due := pythonStrip due_date_str
  let details := pythonStrip details
  if task = "" then (state, .validationError "task")
  else if due = "" then (state, .validationError "due_date")
  else
    match strptime due with
    | none => (state, .validationError "due_date")
    | some _ =>
      let r := Reminder.init task (.str due) priority details false none now
      (sort_reminders (state ++ [r]), .ok)

/-- `_update_selected_reminder`: the selection is a row index into the
sorted list (`_get_selected_reminder_object`); validation precedes every
field write, and on success the selected record is mutated in place
(task, due date, priority, details only) and the list re-sorted. -/
def update_selected_reminder (state : List Reminder) (sel : Option Nat)
    (task due_date_str priority details : String) : List Reminder × OpResult :=
  match sel with
  | none => (state, .noSelection)
  | some i =>
    if h : i < state.length then
      let task := pythonStrip task
      let due := pythonStrip due_date_str
      let details := pythonStrip details
      if task = "" then (state, .validationError "task")
      else if due = "" then (state, .validationError "due_date")
      else
        match strptime due with
        | none => (state, .validationError "due_date")
        | some d =>
          let r := state.get ⟨i, h⟩
          let r2 := { r with task := task, due_date := d,
                             priority := priority, details := details }
          (sort_reminders (state.set i r2), .ok)
    else (state, .noSelection)

/-- `_toggle_complete_selected`: flips the completion flag of the selected
record in place and re-sorts. -/
def toggle_complete_selected (state : List Reminder) (sel : Option Nat) :
    List Reminder × OpResult :=
  match sel with
  | none => (state, .noSelection)
  | some i =>
    if h : i < state.length then
      let r := state.get ⟨i, h⟩
      let r2 := { r with is_completed := !r.is_completed }
      (sort_reminders (state.set i r2), .ok)
    else (state, .noSelection)

/-- `_delete_selected_reminder`: `list.remove` removes exactly the selected
object (comparison falls back to object identity), then the list is
re-sorted. -/
def delete_selected_reminder (state : List Reminder) (sel : Option Nat) :
    List Reminder × OpResult :=
  match sel with
  | none => (state, .noSelection)
  | some i =>
    if i < state.length then (sort_reminders (state.eraseIdx i), .ok)
    else (state, .noSelection)

/-- `_load_reminders_core`: `parsed` is the outcome of `json.load` (its
`JSONDecodeError` is caught).  The decode comprehension is evaluated in full
before being assigned to `self.reminders_list`, so any exception leaves the
previous collection in place; on success the new collection is sorted.
The boolean reports whether the load succeeded. -/
def load_reminders_core (state : List Reminder) (parsed : Except String Json)
    (now : PyDateTime) : List Reminder × Bool :=
  match parsed with
  | .error _ => (state, false)
  | .ok doc =>
    match decode_document doc now with
    | .error _ => (state, false)
    | .ok l => (sort_reminders l, true)

/-! ### Lemmas about the timestamp codec -/

lemma digitChar_isDigit (k : Nat) (h : k ≤ 9) : (Char.ofNat (48 + k)).isDigit = true := by
  interval_cases k <;> decide

lemma dval_digitChar (k : Nat) (h : k ≤ 9) : dval (Char.ofNat (48 + k)) = k := by
  interval_cases k <;> decide

lemma digitChar_not_ws (k : Nat) (h : k ≤ 9) :
    (Char.ofNat (48 + k)).isWhitespace = false := by
  interval_cases k <;> decide

lemma parse_Y_pad4 (y : Nat) (h : y ≤ 9999) (r : List Char) :
    parse_Y (pad4 y ++ r) = some (y, r) := by
  have e1 : y / 1000 % 10 ≤ 9 := Nat.le_of_lt_succ (Nat.mod_lt _ (by omega))
  have e2 : y / 100 % 10 ≤ 9 := Nat.le_of_lt_succ (Nat.mod_lt _ (by omega))
  have e3 : y / 10 % 10 ≤ 9 := Nat.le_of_lt_succ (Nat.mod_lt _ (by omega))
  have e4 : y % 10 ≤ 9 := Nat.le_of_lt_succ (Nat.mod_lt _ (by omega))
  simp only [pad4, List.cons_append, List.nil_append, parse_Y,
    digitChar_isDigit _ e1, digitChar_isDigit _ e2, digitChar_isDigit _ e3,
    digitChar_isDigit _ e4, dval_digitChar _ e1, dval_digitChar _ e2,
    dval_digitChar _ e3, dval_digitChar _ e4, and_self, if_true]
  refine congrArg some (Prod.ext ?_ rfl)
  show (((y / 1000 % 10) * 10 + y / 100 % 10) * 10 + y / 10 % 10) * 10 + y % 10 = y
  omega

lemma parse_m_pad2 (m : Nat) (h1 : 1 ≤ m) (h2 : m ≤ 12) (r : List Char) :
    parse_m (pad2 m ++ r) = some (m, r) := by
  interval_cases m <;> rfl

lemma parse_d_pad2 (d : Nat) (h1 : 1 ≤ d) (h2 : d ≤ 31) (r : List Char) :
    parse_d (pad2 d ++ r) = some (d, r) := by
  interval_cases d <;> rfl

lemma parse_H_pad2 (h : Nat) (hh : h ≤ 23) (r : List Char) :
    parse_H (pad2 h ++ r) = some (h, r) := by
  interval_cases h <;> rfl

lemma parse_M_pad2 (mi : Nat) (h : mi ≤ 59) (r : List Char) :
    parse_M (pad2 mi ++ r) = some (mi, r) := by
  interval_cases mi <;> rfl

lemma skip_ws_pad2 (k : Nat) (r : List Char) :
    skip_ws (' ' :: (pad2 k ++ r)) = some (pad2 k ++ r) := by
  have e : k / 10 % 10 ≤ 9 := Nat.le_of_lt_succ (Nat.mod_lt _ (by omega))
  simp [skip_ws, pad2, List.dropWhile, digitChar_not_ws _ e]

lemma daysInMonth_le (y m : Nat) : daysInMonth y m ≤ 31 := by
  unfold daysInMonth
  split
  · split <;> omega
  · split <;> omega

lemma expectChar_cons (c : Char) (xs : List Char) : expectChar c (c :: xs) = some xs := by
  simp [expectChar]

/-- Formatting a valid datetime at minute resolution and parsing the result
recovers the datetime with its seconds dropped. -/
lemma strptime_strftime (d : PyDateTime) (h : DTValid d) :
    strptime (strftime d) = some { d with second := 0 } := by
  obtain ⟨h1, h2, h3, h4, h5, h6, h7, h8, h9⟩ := h
  have hd31 : d.day ≤ 31 := le_trans h6 (daysInMonth_le d.year d.month)
  have hM : parse_M (pad2 d.minute ++ []) = some (d.minute, []) :=
    parse_M_pad2 d.minute h8 []
  rw [List.append_nil] at hM
  simp only [strptime, strftime]
  show (do
    let p1 ← parse_Y (strftimeChars d)
    let r2 ← expectChar '-' p1.2
    let p2 ← parse_m r2
    let r4 ← expectChar '-' p2.2
    let p3 ← parse_d r4
    let r6 ← skip_ws p3.2
    let p4 ← parse_H r6
    let r8 ← expectChar ':' p4.2
    let p5 ← parse_M r8
    if p5.2 = [] then
      mkValidDateTime p1.1 p2.1 p3.1 p4.1 p5.1
    else none) = some { d with second := 0 }
  rw [strftimeChars, parse_Y_pad4 d.year h2]
  simp only [Option.bind_eq_bind, Option.some_bind]
  rw [expectChar_cons]
  simp only [Option.some_bind]
  rw [parse_m_pad2 d.month h3 h4]
  simp only [Option.some_bind]
  rw [expectChar_cons]
  simp only [Option.some_bind]
  rw [parse_d_pad2 d.day h5 hd31]
  simp only [Option.some_bind]
  rw [skip_ws_pad2]
  simp only [Option.some_bind]
  rw [parse_H_pad2 d.hour h7]
  simp only [Option.some_bind]
  rw [expectChar_cons]
  simp only [Option.some_bind]
  rw [hM]
  simp only [Option.some_bind]
  rw [if_pos trivial]
  unfold mkValidDateTime
  rw [if_pos ⟨h1, h2, h3, h4, h5, h6, h7, h8⟩]

/-- Whatever `strptime` accepts is a valid datetime with zero seconds. -/
lemma strptime_valid {s : String} {d : PyDateTime} (h : strptime s = some d) :
    DTValid d ∧ d.second = 0 := by
  simp only [strptime, Option.bind_eq_bind, Option.bind_eq_some] at h
  obtain ⟨p1, _, p2, _, p3, _, p4, _, p5, _, p6, _, p7, _, p8, _, p9, _, hfin⟩ := h
  split at hfin
  · unfold mkValidDateTime at hfin
    split at hfin
    · rename_i hc
      rw [Option.some_inj] at hfin
      subst hfin
      obtain ⟨c1, c2, c3, c4, c5, c6, c7, c8⟩ := hc
      exact ⟨⟨c1, c2, c3, c4, c5, c6, c7, c8, Nat.zero_le 59⟩, rfl⟩
    · cases hfin
  · cases hfin

/-- A datetime obtained from a parse round-trips through `strftime`. -/
lemma strptime_roundtrip {d : PyDateTime} (h : ∃ s, strptime s = some d) :
    strptime (strftime d) = some d := by
  obtain ⟨s, hs⟩ := h
  obtain ⟨hv, hsec⟩ := strptime_valid hs
  rw [strptime_strftime d hv]
  cases d
  simp_all

/-! ### Lemmas about the record codec -/

/-- Decoding the persisted dictionary of a record whose due date survives
the minute-resolution render, and whose stored creation text is non-empty
(every constructed record's is), reproduces the record exactly. -/
lemma from_dict_to_dict (r : Reminder) (now : PyDateTime)
    (h1 : strptime (strftime r.due_date) = some r.due_date)
    (h2 : r.creation_date ≠ "") :
    Reminder.from_dict r.to_dict now = .ok r := by
  obtain ⟨t, p, dtl, c, cd, dd⟩ := r
  simp only [Reminder.to_dict] at *
  simp [Reminder.from_dict, getRequired, getKey, asString, asBool, asOptString,
    Reminder.init, h1, h2, bind, Except.bind, pure, Except.pure]

lemma decode_encode (X : List Reminder) (now : PyDateTime)
    (h1 : ∀ r ∈ X, strptime (strftime r.due_date) = some r.due_date)
    (h2 : ∀ r ∈ X, r.creation_date ≠ "") :
    decode_document (encode X) now = .ok X := by
  simp only [decode_document, encode, pythonIter, bind, Except.bind]
  induction X with
  | nil => rfl
  | cons r X ih =>
    simp only [List.map_cons, List.mapM_cons, decodeItem,
      from_dict_to_dict r now (h1 r (List.mem_cons_self r X)) (h2 r (List.mem_cons_self r X)),
      bind, Except.bind]
    have ihh := ih (fun q hq => h1 q (List.mem_cons_of_mem r hq))
      (fun q hq => h2 q (List.mem_cons_of_mem r hq))
    rw [ihh]; rfl

/-! ### Lemmas about the canonical sort -/

lemma reminder_le_trans (a b c : Reminder) (h1 : reminder_le a b)
    (h2 : reminder_le b c) : reminder_le a c := by
  simp only [reminder_le, decide_eq_true_eq] at *
  exact le_trans h1 h2

lemma reminder_le_total (a b : Reminder) : reminder_le a b || reminder_le b a := by
  simp only [reminder_le, Bool.or_eq_true, decide_eq_true_eq]
  exact le_total _ _

lemma sorted_sort_reminders (l : List Reminder) : SortedByKey (sort_reminders l) := by
  have h := List.sorted_mergeSort reminder_le_trans reminder_le_total l
  exact h

/-- Stability of `_sort_reminders`: two records with equal sort keys keep
their relative order. -/
lemma sort_reminders_stable (l : List Reminder) (a b : Reminder)
    (hk : a.sortKey = b.sortKey) (hs : [a, b].Sublist l) :
    [a, b].Sublist (sort_reminders l) := by
  apply List.pair_sublist_mergeSort reminder_le_trans reminder_le_total _ hs
  simp only [reminder_le, decide_eq_true_eq, hk, le_refl]

lemma sort_reminders_perm (l : List Reminder) : (sort_reminders l).Perm l :=
  List.mergeSort_perm l reminder_le

/-- The first component of the sort key: a completed record never precedes
an incomplete one in a key-ordered pair. -/
lemma reminder_le_completed {a b : Reminder} (h : reminder_le a b = true)
    (ha : a.is_completed = true) : b.is_completed = true := by
  simp only [reminder_le, decide_eq_true_eq, Reminder.sortKey] at h
  rcases (Prod.Lex.le_iff _ _).mp h with hlt | ⟨heq, -⟩
  · simp only [ha] at hlt
    exact absurd hlt (by simp [Bool.lt_iff])
  · simp only [ha] at heq
    exact heq.symm

/-! ### Claim theorems -/

/-- C1: after every mutation (create, update, delete, toggle-complete,
decode-load) the collection is ordered by the canonical sort — primary key
`completed` ascending, secondary key due date ascending, tertiary key
priority rank ascending with High = 0, Medium = 1, Low = 2 — and the sort
is stable: two records with equal keys retain their relative order. -/
theorem C1_canonical_sort_after_mutations :
    (∀ l, SortedByKey (sort_reminders l)) ∧
    (priority_map "High" = some 0 ∧ priority_map "Medium" = some 1 ∧
      priority_map "Low" = some 2) ∧
    (∀ l t d p dtl now, SortedByKey l →
      SortedByKey (add_reminder_from_ui l t d p dtl now).1) ∧
    (∀ l sel t d p dtl, SortedByKey l →
      SortedByKey (update_selected_reminder l sel t d p dtl).1) ∧
    (∀ l sel, SortedByKey l → SortedByKey (delete_selected_reminder l sel).1) ∧
    (∀ l sel, SortedByKey l → SortedByKey (toggle_complete_selected l sel).1) ∧
    (∀ l parsed now, SortedByKey l →
      SortedByKey (load_reminders_core l parsed now).1) ∧
    (∀ l a b, Reminder.sortKey a = Reminder.sortKey b → [a, b].Sublist l →
      [a, b].Sublist (sort_reminders l)) := by
  refine ⟨sorted_sort_reminders, ⟨by decide, by decide, by decide⟩,
    ?_, ?_, ?_, ?_, ?_, sort_reminders_stable⟩
  · intro l t d p dtl now hl
    unfold add_reminder_from_ui
    dsimp only
    repeat' split
    all_goals first | exact hl | exact sorted_sort_reminders _
  · intro l sel t d p dtl hl
    unfold update_selected_reminder
    dsimp only
    repeat' split
    all_goals first | exact hl | exact sorted_sort_reminders _
  · intro l sel hl
    unfold delete_selected_reminder
    repeat' split
    all_goals first | exact hl | exact sorted_sort_reminders _
  · intro l sel hl
    unfold toggle_complete_selected
    repeat' split
    all_goals first | exact hl | exact sorted_sort_reminders _
  · intro l parsed now hl
    unfold load_reminders_core
    repeat' split
    all_goals first | exact hl | exact sorted_sort_reminders _

/-- Witness for C1 at concrete inputs. -/
theorem C1_canonical_sort_after_mutations_witness :
    SortedByKey (add_reminder_from_ui [] "Buy milk" "2025-01-01 09:00" "High" ""
      ⟨2025, 1, 1, 8, 0, 0⟩).1 ∧
    [⟨"a", "High", "", false, "c", ⟨2025, 1, 1, 9, 0, 0⟩⟩,
     ⟨"b", "High", "", false, "c", ⟨2025, 1, 1, 9, 0, 0⟩⟩].Sublist
      (sort_reminders
        [⟨"a", "High", "", false, "c", ⟨2025, 1, 1, 9, 0, 0⟩⟩,
         ⟨"b", "High", "", false, "c", ⟨2025, 1, 1, 9, 0, 0⟩⟩]) :=
  ⟨C1_canonical_sort_after_mutations.2.2.1 [] "Buy milk" "2025-01-01 09:00"
      "High" "" ⟨2025, 1, 1, 8, 0, 0⟩ List.Pairwise.nil,
   C1_canonical_sort_after_mutations.2.2.2.2.2.2.2 _ _ _ (by decide)
      (List.Sublist.refl _)⟩

lemma toggle_eq (l : List Reminder) (i : Nat) (hi : i < l.length) :
    toggle_complete_selected l (some i) =
      (sort_reminders (l.set i
        { l.get ⟨i, hi⟩ with is_completed := !(l.get ⟨i, hi⟩).is_completed }),
       .ok) := by
  simp [toggle_complete_selected, dif_pos hi]

/-- C8: toggling an incomplete record completes it, and in the re-sorted
collection it sits after every remaining incomplete record: along the
resulting list a completed record is never followed by an incomplete one,
whatever the due dates and priorities involved. -/
theorem C8_toggle_moves_after_all_incomplete (l : List Reminder) (i : Nat)
    (hi : i < l.length) (hinc : (l.get ⟨i, hi⟩).is_completed = false) :
    ({ l.get ⟨i, hi⟩ with is_completed := true } ∈
        (toggle_complete_selected l (some i)).1) ∧
    (∀ j k (hj : j < (toggle_complete_selected l (some i)).1.length)
        (hk : k < (toggle_complete_selected l (some i)).1.length), j < k →
      ((toggle_complete_selected l (some i)).1.get ⟨j, hj⟩).is_completed = true →
      ((toggle_complete_selected l (some i)).1.get ⟨k, hk⟩).is_completed = true) := by
  have e := toggle_eq l i hi
  rw [hinc] at e
  constructor
  · rw [e]
    show _ ∈ sort_reminders _
    unfold sort_reminders
    rw [List.mem_mergeSort]
    have hlen : i < (l.set i { l.get ⟨i, hi⟩ with is_completed := true }).length := by
      simpa using hi
    have hget := List.get_set_eq (l := l) (i := i)
      (a := { l.get ⟨i, hi⟩ with is_completed := true }) hlen
    rw [← hget]
    exact List.get_mem _ _ _
  · intro j k hj hk hjk hcomp
    have hsorted : SortedByKey (toggle_complete_selected l (some i)).1 := by
      rw [e]; exact sorted_sort_reminders _
    rw [SortedByKey, List.pairwise_iff_get] at hsorted
    exact reminder_le_completed (hsorted ⟨j, hj⟩ ⟨k, hk⟩ hjk) hcomp

/-- Witness for C8: toggling the earliest-due incomplete record. -/
theorem C8_toggle_moves_after_all_incomplete_witness :
    (⟨"early", "High", "", true, "c", ⟨2025, 1, 1, 9, 0, 0⟩⟩ : Reminder) ∈
      (toggle_complete_selected
        [⟨"early", "High", "", false, "c", ⟨2025, 1, 1, 9, 0, 0⟩⟩,
         ⟨"late", "Low", "", false, "c", ⟨2025, 12, 1, 9, 0, 0⟩⟩] (some 0)).1 :=
  (C8_toggle_moves_after_all_incomplete
    [⟨"early", "High", "", false, "c", ⟨2025, 1, 1, 9, 0, 0⟩⟩,
     ⟨"late", "Low", "", false, "c", ⟨2025, 12, 1, 9, 0, 0⟩⟩] 0
    (by decide) (by decide)).1

/-- C5: a create or update call whose stripped inputs fail validation (empty
task, empty due text, or due text that does not parse) reports a validation
error and performs no mutation: the collection — and so every field of the
targeted record — is exactly what it was before the call. -/
theorem C5_validation_failure_no_mutation (l : List Reminder)
    (t d p dtl : String) (now : PyDateTime) (i : Nat) (hi : i < l.length)
    (hbad : pythonStrip t = "" ∨ pythonStrip d = "" ∨ strptime (pythonStrip d) = none) :
    ((add_reminder_from_ui l t d p dtl now).1 = l ∧
      ∃ f, (add_reminder_from_ui l t d p dtl now).2 = .validationError f) ∧
    ((update_selected_reminder l (some i) t d p dtl).1 = l ∧
      ∃ f, (update_selected_reminder l (some i) t d p dtl).2 = .validationError f) := by
  have key : ∀ (ρ : List Reminder × OpResult),
      (if pythonStrip t = "" then ρ = (l, .validationError "task")
       else if pythonStrip d = "" then ρ = (l, .validationError "due_date")
       else match strptime (pythonStrip d) with
         | none => ρ = (l, .validationError "due_date")
         | some _ => True) →
      ρ.1 = l ∧ ∃ f, ρ.2 = .validationError f := by
    intro ρ hρ
    rcases hbad with h | h | h
    · rw [if_pos h] at hρ
      exact ⟨by rw [hρ], "task", by rw [hρ]⟩
    · by_cases ht : pythonStrip t = ""
      · rw [if_pos ht] at hρ
        exact ⟨by rw [hρ], "task", by rw [hρ]⟩
      · rw [if_neg ht, if_pos h] at hρ
        exact ⟨by rw [hρ], "due_date", by rw [hρ]⟩
    · by_cases ht : pythonStrip t = ""
      · rw [if_pos ht] at hρ
        exact ⟨by rw [hρ], "task", by rw [hρ]⟩
      · by_cases hd : pythonStrip d = ""
        · rw [if_neg ht, if_pos hd] at hρ
          exact ⟨by rw [hρ], "due_date", by rw [hρ]⟩
        · rw [if_neg ht, if_neg hd, h] at hρ
          exact ⟨by rw [hρ], "due_date", by rw [hρ]⟩
  constructor
  · apply key
    unfold add_reminder_from_ui
    dsimp only
    split
    · rfl
    · split
      · rfl
      · split
        · rfl
        · trivial
  · apply key
    unfold update_selected_reminder
    dsimp only
    rw [dif_pos hi]
    split
    · rfl
    · split
      · rfl
      · split
        · rfl
        · trivial

/-- Witness for C5: an update with an empty task string and an add with an
unparsable due date, both leaving the collection as it was. -/
theorem C5_validation_failure_no_mutation_witness :
    (update_selected_reminder
        [⟨"keep me", "High", "", false, "c", ⟨2025, 1, 1, 9, 0, 0⟩⟩] (some 0)
        "  " "2025-01-01 09:00" "Low" "").1 =
      [⟨"keep me", "High", "", false, "c", ⟨2025, 1, 1, 9, 0, 0⟩⟩] ∧
    (add_reminder_from_ui
        [⟨"keep me", "High", "", false, "c", ⟨2025, 1, 1, 9, 0, 0⟩⟩]
        "task" "not-a-date" "Low" "" ⟨2025, 6, 1, 0, 0, 0⟩).1 =
      [⟨"keep me", "High", "", false, "c", ⟨2025, 1, 1, 9, 0, 0⟩⟩] :=
  ⟨((C5_validation_failure_no_mutation _ "  " "2025-01-01 09:00" "Low" ""
      ⟨2025, 6, 1, 0, 0, 0⟩ 0 (by decide) (Or.inl (by decide))).2).1,
   ((C5_validation_failure_no_mutation _ "task" "not-a-date" "Low" ""
      ⟨2025, 6, 1, 0, 0, 0⟩ 0 (by decide) (Or.inr (Or.inr (by decide)))).1).1⟩

/-- C7: a successful update mutates the targeted record in place — the
result is the re-sorted original list with only the targeted position
replaced, and the replacement keeps the record's `creation_date` (and its
completion flag) exactly; moreover no operation ever rewrites any record's
`creation_date`: the multiset of stored creation texts is preserved by
update and by toggle. -/
theorem C7_update_in_place_creation_immutable (l : List Reminder) (i : Nat)
    (hi : i < l.length) (t d p dtl : String) (dt0 : PyDateTime)
    (ht : pythonStrip t ≠ "") (hd : strptime (pythonStrip d) = some dt0) :
    update_selected_reminder l (some i) t d p dtl =
      (sort_reminders (l.set i
        { l.get ⟨i, hi⟩ with task := pythonStrip t, due_date := dt0,
                             priority := p, details := pythonStrip dtl }), .ok) ∧
    ({ l.get ⟨i, hi⟩ with task := pythonStrip t, due_date := dt0,
                          priority := p, details := pythonStrip dtl }).creation_date =
      (l.get ⟨i, hi⟩).creation_date ∧
    ({ l.get ⟨i, hi⟩ with task := pythonStrip t, due_date := dt0,
                          priority := p, details := pythonStrip dtl }).is_completed =
      (l.get ⟨i, hi⟩).is_completed ∧
    ((update_selected_reminder l (some i) t d p dtl).1.map
        Reminder.creation_date).Perm (l.map Reminder.creation_date) ∧
    (∀ sel, ((toggle_complete_selected l sel).1.map
        Reminder.creation_date).Perm (l.map Reminder.creation_date)) := by
  have hd' : pythonStrip d ≠ "" := by
    intro h0
    rw [h0] at hd
    exact Option.noConfusion hd
  have heq : update_selected_reminder l (some i) t d p dtl =
      (sort_reminders (l.set i
        { l.get ⟨i, hi⟩ with task := pythonStrip t, due_date := dt0,
                             priority := p, details := pythonStrip dtl }), .ok) := by
    unfold update_selected_reminder
    dsimp only
    rw [dif_pos hi, if_neg ht, if_neg hd', hd]
  have hperm : ∀ (j : Nat) (hj : j < l.length) (r2 : Reminder),
      r2.creation_date = (l.get ⟨j, hj⟩).creation_date →
      ((sort_reminders (l.set j r2)).map Reminder.creation_date).Perm
        (l.map Reminder.creation_date) := by
    intro j hj r2 hcd
    have h1 : (sort_reminders (l.set j r2)).Perm (l.set j r2) :=
      sort_reminders_perm _
    refine (h1.map Reminder.creation_date).trans ?_
    rw [List.map_set, hcd]
    have : (l.map Reminder.creation_date).get ⟨j, by simpa using hj⟩ =
        (l.get ⟨j, hj⟩).creation_date := by
      simp
    rw [← this]
    rw [show ∀ (L : List String) (j : Nat) (hj : j < L.length),
          L.set j (L.get ⟨j, hj⟩) = L from ?_]
    · intro L j hj
      induction L generalizing j with
      | nil => simp at hj
      | cons a L ih =>
        cases j with
        | zero => rfl
        | succ j => simpa using ih j (by simpa using hj)
  refine ⟨heq, rfl, rfl, ?_, ?_⟩
  · rw [heq]
    exact hperm i hi _ rfl
  · intro sel
    match sel with
    | none => exact List.Perm.refl _
    | some j =>
      by_cases hj : j < l.length
      · rw [toggle_eq l j hj]
        exact hperm j hj _ rfl
      · unfold toggle_complete_selected
        dsimp only
        rw [dif_neg hj]

/-- Witness for C7 at a concrete update. -/
theorem C7_update_in_place_creation_immutable_witness :
    update_selected_reminder
        [⟨"old", "High", "", true, "2024-12-31 10:00", ⟨2025, 1, 1, 9, 0, 0⟩⟩]
        (some 0) "new task" "2025-02-02 10:30" "Low" "notes" =
      (sort_reminders
        [⟨"new task", "Low", "notes", true, "2024-12-31 10:00", ⟨2025, 2, 2, 10, 30, 0⟩⟩],
       .ok) :=
  (C7_update_in_place_creation_immutable
    [⟨"old", "High", "", true, "2024-12-31 10:00", ⟨2025, 1, 1, 9, 0, 0⟩⟩]
    0 (by decide) "new task" "2025-02-02 10:30" "Low" "notes"
    ⟨2025, 2, 2, 10, 30, 0⟩ (by decide) (by decide)).1

/-- C2: for a collection whose every due date was obtained by parsing some
validly-formatted canonical timestamp text (hence minute-resolution and
range-valid), decoding the encoded document reproduces every field of every
record — task, due date, priority, details, completion flag and stored
creation text (which is never empty on a constructed record). -/
theorem C2_encode_decode_roundtrip (X : List Reminder) (now : PyDateTime)
    (hdue : ∀ r ∈ X, ∃ s, strptime s = some r.due_date)
    (hcd : ∀ r ∈ X, r.creation_date ≠ "") :
    decode_document (encode X) now = .ok X :=
  decode_encode X now (fun r hr => strptime_roundtrip (hdue r hr)) hcd

/-- Witness for C2 on a two-record collection. -/
theorem C2_encode_decode_roundtrip_witness :
    decode_document (encode
      [⟨"Buy milk", "High", "note", true, "2025-01-01 08:00", ⟨2025, 1, 1, 9, 0, 0⟩⟩,
       ⟨"Call dentist", "Low", "", false, "2024-12-30 07:00", ⟨2025, 3, 2, 23, 59, 0⟩⟩])
      ⟨2025, 6, 15, 12, 30, 45⟩ =
    .ok [⟨"Buy milk", "High", "note", true, "2025-01-01 08:00", ⟨2025, 1, 1, 9, 0, 0⟩⟩,
         ⟨"Call dentist", "Low", "", false, "2024-12-30 07:00", ⟨2025, 3, 2, 23, 59, 0⟩⟩] :=
  C2_encode_decode_roundtrip _ _
    (by
      intro r hr
      simp only [List.mem_cons, List.not_mem_nil, or_false] at hr
      rcases hr with h | h
      · subst h; exact ⟨"2025-01-01 09:00", rfl⟩
      · subst h; exact ⟨"2025-03-02 23:59", rfl⟩)
    (by
      intro r hr
      simp only [List.mem_cons, List.not_mem_nil, or_false] at hr
      rcases hr with h | h
      · subst h; decide
      · subst h; decide)

/-- C3: a record construction whose `due_date_str` text fails to parse still
succeeds, substituting the construction-time current timestamp as the due
date; in particular decoding a document element with
`"due_date_str": "not-a-date"` does not fail and yields a record whose due
date is the decode-time current time, the rest of the decode proceeding
normally. -/
theorem C3_unparsable_due_falls_back_to_now (t s p dtl : String) (c : Bool)
    (cd : Option String) (now : PyDateTime) (hbad : strptime s = none) :
    (Reminder.init t (.str s) p dtl c cd now).due_date = now ∧
    decode_document
      (Json.arr [Json.obj [("task", .str "t"),
                           ("due_date_str", .str "not-a-date"),
                           ("priority", .str "High")],
                 Json.obj [("task", .str "u"),
                           ("due_date_str", .str "2025-01-01 09:00"),
                           ("priority", .str "Low")]]) now =
      .ok [⟨"t", "High", "", false, strftime now, now⟩,
           ⟨"u", "Low", "", false, strftime now, ⟨2025, 1, 1, 9, 0, 0⟩⟩] := by
  constructor
  · simp [Reminder.init, hbad]
  · rfl

/-- Witness for C3 at a concrete unparsable input. -/
theorem C3_unparsable_due_falls_back_to_now_witness :
    (Reminder.init "walk dog" (.str "not-a-date") "Medium" "" false none
      ⟨2025, 6, 15, 12, 30, 45⟩).due_date = ⟨2025, 6, 15, 12, 30, 45⟩ :=
  (C3_unparsable_due_falls_back_to_now "walk dog" "not-a-date" "Medium" ""
    false none ⟨2025, 6, 15, 12, 30, 45⟩ rfl).1

/-- C4: a load that fails wholesale — the document is not valid JSON, or its
top level is not an array of well-formed elements so the decode
comprehension raises — leaves the previous in-memory collection completely
untouched. -/
theorem C4_failed_load_leaves_state_untouched (state : List Reminder)
    (parsed : Except String Json) (now : PyDateTime) :
    (∀ e, parsed = .error e → (load_reminders_core state parsed now).1 = state) ∧
    (∀ doc err, parsed = .ok doc → decode_document doc now = .error err →
      (load_reminders_core state parsed now).1 = state) := by
  constructor
  · intro e he
    subst he
    rfl
  · intro doc err he hd
    subst he
    unfold load_reminders_core
    dsimp only
    rw [hd]

/-- Witness for C4: a non-array document and a syntactically invalid one. -/
theorem C4_failed_load_leaves_state_untouched_witness :
    (load_reminders_core [⟨"keep", "High", "", false, "c", ⟨2025, 1, 1, 9, 0, 0⟩⟩]
      (.ok (Json.num 3)) ⟨2025, 6, 15, 12, 30, 45⟩).1 =
      [⟨"keep", "High", "", false, "c", ⟨2025, 1, 1, 9, 0, 0⟩⟩] ∧
    (load_reminders_core [⟨"keep", "High", "", false, "c", ⟨2025, 1, 1, 9, 0, 0⟩⟩]
      (.error "JSONDecodeError") ⟨2025, 6, 15, 12, 30, 45⟩).1 =
      [⟨"keep", "High", "", false, "c", ⟨2025, 1, 1, 9, 0, 0⟩⟩] :=
  ⟨(C4_failed_load_leaves_state_untouched _ _ _).2 (Json.num 3)
      "TypeError: not iterable" rfl rfl,
   (C4_failed_load_leaves_state_untouched _ _ _).1 "JSONDecodeError" rfl⟩

/-- C6: decoding an element requires the keys `task` and `priority` (absence
raises, failing the load), while the other optional keys default: `details`
to the empty string, `is_completed` to false, and `creation_date` to the
current timestamp at decode time. -/
theorem C6_required_keys_and_defaults (data : List (String × Json)) (now : PyDateTime) :
    (getKey data "task" = none →
      Reminder.from_dict data now = .error "KeyError: task") ∧
    (∀ jt jd, getKey data "task" = some jt → getKey data "due_date_str" = some jd →
      getKey data "priority" = none →
      Reminder.from_dict data now = .error "KeyError: priority") ∧
    (∀ t ds p, getKey data "task" = some (.str t) →
      getKey data "due_date_str" = some (.str ds) →
      getKey data "priority" = some (.str p) →
      getKey data "details" = none → getKey data "is_completed" = none →
      getKey data "creation_date" = none →
      ∃ r, Reminder.from_dict data now = .ok r ∧ r.details = "" ∧
        r.is_completed = false ∧ r.creation_date = strftime now) := by
  refine ⟨?_, ?_, ?_⟩
  · intro h
    simp [Reminder.from_dict, getRequired, h, bind, Except.bind]
  · intro jt jd h1 h2 h3
    simp [Reminder.from_dict, getRequired, h1, h2, h3, bind, Except.bind]
  · intro t ds p h1 h2 h3 h4 h5 h6
    refine ⟨Reminder.init t (.str ds) p "" false none now, ?_, rfl, rfl, ?_⟩
    · simp [Reminder.from_dict, getRequired, h1, h2, h3, h4, h5, h6,
        asString, asBool, asOptString, bind, Except.bind, pure, Except.pure]
    · simp [Reminder.init]

/-- Witness for C6 on three concrete document elements. -/
theorem C6_required_keys_and_defaults_witness :
    Reminder.from_dict [("priority", .str "High")] ⟨2025, 6, 15, 12, 30, 45⟩ =
      .error "KeyError: task" ∧
    Reminder.from_dict [("task", .str "t"), ("due_date_str", .str "2025-01-01 09:00")]
      ⟨2025, 6, 15, 12, 30, 45⟩ = .error "KeyError: priority" ∧
    ∃ r, Reminder.from_dict
        [("task", .str "t"), ("due_date_str", .str "2025-01-01 09:00"),
         ("priority", .str "High")] ⟨2025, 6, 15, 12, 30, 45⟩ = .ok r ∧
      r.details = "" ∧ r.is_completed = false ∧
      r.creation_date = strftime ⟨2025, 6, 15, 12, 30, 45⟩ :=
  ⟨(C6_required_keys_and_defaults [("priority", .str "High")] _).1 rfl,
   (C6_required_keys_and_defaults
      [("task", .str "t"), ("due_date_str", .str "2025-01-01 09:00")] _).2.1
      (.str "t") (.str "2025-01-01 09:00") rfl rfl rfl,
   (C6_required_keys_and_defaults
      [("task", .str "t"), ("due_date_str", .str "2025-01-01 09:00"),
       ("priority", .str "High")] _).2.2
      "t" "2025-01-01 09:00" "High" rfl rfl rfl rfl rfl rfl⟩

/-- C9: `to_dict` renders `due_date_str` by formatting the due date at
minute resolution in the canonical format; the rendered text always parses
back (to the due date with seconds dropped) — even when the due date came
from the fallback substitution and carries sub-minute precision — so the
constructor's date-parse fallback branch is never taken on a text produced
by `to_dict`. -/
theorem C9_encoded_due_text_always_parses (r : Reminder) (h : DTValid r.due_date) :
    getKey r.to_dict "due_date_str" = some (.str (strftime r.due_date)) ∧
    strptime (strftime r.due_date) = some { r.due_date with second := 0 } ∧
    (∀ t p dtl c cd now,
      (Reminder.init t (.str (strftime r.due_date)) p dtl c cd now).due_date =
        { r.due_date with second := 0 }) := by
  refine ⟨rfl, strptime_strftime _ h, ?_⟩
  intro t p dtl c cd now
  simp [Reminder.init, strptime_strftime _ h]

/-- Witness for C9 on a record whose due date has sub-minute precision, as
the fallback substitution produces. -/
theorem C9_encoded_due_text_always_parses_witness :
    strptime (strftime ⟨2025, 6, 15, 12, 30, 45⟩) = some ⟨2025, 6, 15, 12, 30, 0⟩ :=
  (C9_encoded_due_text_always_parses
    ⟨"t", "Medium", "", false, "2025-06-15 12:30", ⟨2025, 6, 15, 12, 30, 45⟩⟩
    (by decide)).2.1

/-- C10: a `creation_date` that is present but equal to the empty string is
treated like an absent one — the decoded record's creation text becomes the
current timestamp at decode time — so an empty stored creation text is not
preserved verbatim by the encode/decode round trip. -/
theorem C10_empty_creation_date_not_preserved (now : PyDateTime) :
    (∀ t due p dtl c,
      (Reminder.init t due p dtl c (some "") now).creation_date = strftime now) ∧
    decode_document (encode
      [⟨"t", "High", "", false, "", ⟨2025, 1, 1, 9, 0, 0⟩⟩]) now =
      .ok [⟨"t", "High", "", false, strftime now, ⟨2025, 1, 1, 9, 0, 0⟩⟩] ∧
    strftime now ≠ "" := by
  refine ⟨?_, rfl, ?_⟩
  · intro t due p dtl c
    rfl
  · intro hsn
    have : strftimeChars now = [] := by
      have := congrArg String.data hsn
      simpa [strftime] using this
    simp [strftimeChars, pad4] at this

end ReminderApp
